import Mathlib

/-!
Verification of the OpenStock validation-driven ingestion pipeline.

This development shallowly embeds the core of the repository — the
validation engine (`src/validation.rs`), the CSV import pipeline
(`src/commands/import.rs`), the CSV update and retry pipelines
(`src/commands/update.rs`) and the partial-update query
(`src/db/queries.rs`) — and proves properties of the embedding.

Modelling conventions:
- Rust `f64` prices are modelled as `Rat`; every price the pipeline
  manipulates comes from parsing a decimal literal or from the fixed
  sentinels, all of which are exact in `Rat`, and no claim depends on
  rounding of float arithmetic (the pipeline performs none).
- Rust `i32`/`i64` integers are modelled as `Int`, with the range checks
  of `str::parse` made explicit in the parsing functions.
- Rust `str::len` is UTF-8 byte length; it is modelled by `rustLen`.
- `str::trim` trims Unicode `White_Space` characters; the exact scalar
  set is reproduced in `rustWhitespaceVals`.
- `str::parse::<f64>` is modelled on plain decimal notation
  (optional sign, digits, optional fractional part); the exponent /
  infinity / NaN forms accepted by Rust are outside every input the
  claims exercise.
- `String::to_lowercase` is modelled on its ASCII fragment (the
  condition vocabulary it is applied to is ASCII).
- Terminal input (`read_line` + `trim`) is modelled by a list of input
  lines consumed in order; end of input behaves as an empty line, as
  `read_line` then yields an empty buffer.
- The SQLite store is modelled as a list of items; `INSERT` succeeds
  whenever it is reached (the schema CHECK constraints are implied by
  the validation that guards every insert), and `UPDATE ... WHERE
  item_id = ?` with `affected == 0` is an error, as in the source.
-/

set_option maxRecDepth 10000
set_option maxHeartbeats 1000000

/-- Decidable equality of batch results modelled as `Except`. -/
instance {ε α : Type} [DecidableEq ε] [DecidableEq α] : DecidableEq (Except ε α) :=
  fun a b =>
    match a, b with
    | .ok x, .ok y =>
        if h : x = y then .isTrue (by rw [h]) else .isFalse (by simp [h])
    | .error x, .error y =>
        if h : x = y then .isTrue (by rw [h]) else .isFalse (by simp [h])
    | .ok _, .error _ => .isFalse (by simp)
    | .error _, .ok _ => .isFalse (by simp)

/-- UTF-8 encoded size of one scalar value, as Rust counts `str::len`. -/
def charUtf8Size (c : Char) : Nat :=
  if c.toNat < 0x80 then 1
  else if c.toNat < 0x800 then 2
  else if c.toNat < 0x10000 then 3
  else 4

/-- Rust `str::len`: the UTF-8 byte length of a string. -/
def rustLen (s : String) : Nat :=
  (s.data.map charUtf8Size).sum

/-- The scalar values of the Unicode `White_Space` property, which is what
Rust `char::is_whitespace` tests. -/
def rustWhitespaceVals : List Nat :=
  [0x09, 0x0A, 0x0B, 0x0C, 0x0D, 0x20, 0x85, 0xA0, 0x1680,
   0x2000, 0x2001, 0x2002, 0x2003, 0x2004, 0x2005, 0x2006, 0x2007,
   0x2008, 0x2009, 0x200A, 0x2028, 0x2029, 0x202F, 0x205F, 0x3000]

/-- Rust `char::is_whitespace`. -/
def isRustWs (c : Char) : Bool :=
  rustWhitespaceVals.contains c.toNat

/-- Rust `str::trim`: drop leading and trailing whitespace. -/
def rustTrim (s : String) : String :=
  ⟨((s.data.dropWhile isRustWs).reverse.dropWhile isRustWs).reverse⟩

/-- Rust `String::to_lowercase`, on its ASCII fragment. -/
def rustToLower (s : String) : String :=
  ⟨s.data.map Char.toLower⟩

/-- Numeric value of a run of ASCII digits. -/
def digitsToNat (ds : List Char) : Nat :=
  ds.foldl (fun n c => 10 * n + (c.toNat - 48)) 0

/-- Unsigned decimal literal: digits, optionally a point and more digits,
with at least one digit present. Models the core of `str::parse::<f64>`.
The value `ip.fp` is built as the single fraction
`(ip * 10^|fp| + fp) / 10^|fp|`. -/
def parseUnsignedDec (s : List Char) : Option Rat :=
  let ip := s.takeWhile Char.isDigit
  let rest := s.dropWhile Char.isDigit
  match rest with
  | [] => if ip.isEmpty then none else some (mkRat (digitsToNat ip) 1)
  | '.' :: fp =>
      if fp.all Char.isDigit && !(ip.isEmpty && fp.isEmpty) then
        some (mkRat (digitsToNat ip * 10 ^ fp.length + digitsToNat fp) (10 ^ fp.length))
      else none
  | _ => none

/-- Rust `str::parse::<f64>` on plain decimal notation. -/
def parseF64 (s : String) : Option Rat :=
  match s.data with
  | '-' :: rest => (parseUnsignedDec rest).map (fun q => -q)
  | '+' :: rest => parseUnsignedDec rest
  | l => parseUnsignedDec l

/-- Signed decimal integer literal with no range check. -/
def parseSignedInt (s : String) : Option Int :=
  let core : List Char → Option Int := fun ds =>
    if ds.isEmpty || !(ds.all Char.isDigit) then none
    else some (digitsToNat ds : Int)
  match s.data with
  | '-' :: rest => (core rest).map (fun n => -n)
  | '+' :: rest => core rest
  | l => core l

/-- Rust `str::parse::<i32>`: signed digits, within the i32 range. -/
def parseI32 (s : String) : Option Int :=
  (parseSignedInt s).bind (fun n =>
    if -(2 ^ 31) ≤ n ∧ n ≤ 2 ^ 31 - 1 then some n else none)

/-- Rust `str::parse::<i64>`: signed digits, within the i64 range. -/
def parseI64 (s : String) : Option Int :=
  (parseSignedInt s).bind (fun n =>
    if -(2 ^ 63) ≤ n ∧ n ≤ 2 ^ 63 - 1 then some n else none)

/-- Rendering of a numeric value, as Rust `f64::to_string` renders the
integral values that are the only ones any claim inspects. -/
def ratToString (q : Rat) : String :=
  if q.den = 1 then toString q.num
  else toString q.num ++ "/" ++ toString q.den

/-- One field-level failure: `ValidationError` of `src/validation.rs`. -/
structure ValidationError where
  field : String
  message : String
  row : Option Nat
  value : Option String
deriving DecidableEq, Repr

/-- `validate_title_ebay` of `src/validation.rs`. -/
def validate_title_ebay (title : String) : List ValidationError :=
  (if rustLen title > 80 then
    [⟨"title", "Exceeds eBay's 80-character limit", none, some title⟩] else [])
  ++ (if (rustTrim title).isEmpty then
    [⟨"title", "Title cannot be empty", none, some title⟩] else [])

/-- `validate_title_stockx` of `src/validation.rs`. -/
def validate_title_stockx (title : String) : List ValidationError :=
  (if rustLen title > 80 then
    [⟨"title", "Exceeds StockX's 80-character limit", none, some title⟩] else [])
  ++ (if (rustTrim title).isEmpty then
    [⟨"title", "Title cannot be empty", none, some title⟩] else [])

/-- `validate_title_poshmark` of `src/validation.rs`. -/
def validate_title_poshmark (title : String) : List ValidationError :=
  (if rustLen title > 80 then
    [⟨"title", "Exceeds Poshmark's 80-character limit", none, some title⟩] else [])
  ++ (if (rustTrim title).isEmpty then
    [⟨"title", "Title cannot be empty", none, some title⟩] else [])

/-- `validate_title_mercari` of `src/validation.rs`. -/
def validate_title_mercari (title : String) : List ValidationError :=
  (if rustLen title > 80 then
    [⟨"title", "Exceeds Mercari's 80-character limit", none, some title⟩] else [])
  ++ (if (rustTrim title).isEmpty then
    [⟨"title", "Title cannot be empty", none, some title⟩] else [])

/-- The literal `999999.99` of `validate_price`, as the exact decimal. -/
def priceCap : Rat := mkRat 99999999 100

/-- `validate_price` of `src/validation.rs`. -/
def validate_price (price : Rat) : List ValidationError :=
  (if price < 0 then
    [⟨"price", "Price must be non-negative", none, some (ratToString price)⟩] else [])
  ++ (if price > priceCap then
    [⟨"price", "Price exceeds maximum allowed value", none, some (ratToString price)⟩] else [])

/-- `validate_quantity` of `src/validation.rs`. -/
def validate_quantity (quantity : Int) : List ValidationError :=
  (if quantity < 0 then
    [⟨"quantity", "Quantity must be non-negative", none, some (toString quantity)⟩] else [])
  ++ (if quantity > 999999 then
    [⟨"quantity", "Quantity exceeds maximum allowed value", none, some (toString quantity)⟩] else [])

/-- `validate_upc_stockx` of `src/validation.rs`. -/
def validate_upc_stockx (upc : String) : List ValidationError :=
  if (rustTrim upc).isEmpty then
    [⟨"upc", "UPC is required for StockX listings", none, some upc⟩]
  else
    let digits := upc.data.filter Char.isDigit
    if digits.length ≠ 12 ∧ digits.length ≠ 13 then
      [⟨"upc", "UPC must be 12 or 13 digits", none, some upc⟩]
    else []

/-- `validate_upc_ebay` of `src/validation.rs`. -/
def validate_upc_ebay (upc : String) : List ValidationError :=
  if !(rustTrim upc).isEmpty then
    let digits := upc.data.filter Char.isDigit
    if digits.length ≠ 12 ∧ digits.length ≠ 13 then
      [⟨"upc", "UPC must be 12 or 13 digits", none, some upc⟩]
    else []
  else []

/-- `validate_size_poshmark` of `src/validation.rs`. -/
def validate_size_poshmark (size : String) : List ValidationError :=
  if (rustTrim size).isEmpty then
    [⟨"size", "Size is required for Poshmark clothing items", none, some size⟩]
  else []

/-- `validate_size_stockx` of `src/validation.rs`. -/
def validate_size_stockx (size : String) : List ValidationError :=
  if (rustTrim size).isEmpty then
    [⟨"size", "Size is required for StockX listings", none, some size⟩]
  else []

/-- The condition vocabulary of `validate_condition`. -/
def valid_conditions : List String :=
  ["new", "used", "deadstock", "like new", "good", "fair"]

/-- The message `validate_condition` builds by joining `valid_conditions`. -/
def conditionMessage : String :=
  "Invalid condition. Must be one of: new, used, deadstock, like new, good, fair"

/-- `validate_condition` of `src/validation.rs`. -/
def validate_condition (condition : String) : List ValidationError :=
  if !(valid_conditions.contains (rustToLower condition)) then
    [⟨"condition", conditionMessage, none, some condition⟩]
  else []

/-- `validate_category` of `src/validation.rs`. -/
def validate_category (category : String) : List ValidationError :=
  if (rustTrim category).isEmpty then
    [⟨"category", "Category cannot be empty", none, some category⟩]
  else []

/-- `validate_brand` of `src/validation.rs`. -/
def validate_brand (brand : String) : List ValidationError :=
  if !(rustTrim brand).isEmpty && rustLen brand > 100 then
    [⟨"brand", "Brand name exceeds 100 character limit", none, some brand⟩]
  else []

/-- The `if let Some(brand_name) = brand` guard of `validate_item_ebay`. -/
def validateOptBrand : Option String → List ValidationError
  | some b => validate_brand b
  | none => []

/-- The `if let Some(upc_code) = upc` guard of `validate_item_ebay`. -/
def validateOptUpcEbay : Option String → List ValidationError
  | some u => validate_upc_ebay u
  | none => []

/-- `validate_item_ebay` of `src/validation.rs`: the per-record outcome,
concatenating the field validators in their fixed order. -/
def validate_item_ebay (title : String) (price : Rat) (quantity : Int)
    (category condition : String) (brand upc : Option String) : List ValidationError :=
  validate_title_ebay title
  ++ validate_price price
  ++ validate_quantity quantity
  ++ validate_category category
  ++ validate_condition condition
  ++ validateOptBrand brand
  ++ validateOptUpcEbay upc

/-- A stored catalog record, with the columns read back by
`get_item_by_id` in `src/db/queries.rs`. A NULL `brand`/`upc` reads back
as the empty string there (`unwrap_or_default`), so both are plain
strings here with the empty string standing for NULL. -/
structure Item where
  item_id : Int
  title : String
  price : Rat
  quantity : Int
  category : String
  condition : String
  brand : String
  upc : String
  last_updated : String
deriving DecidableEq, Repr

/-- The items table. -/
abbrev Store := List Item

/-- `get_item_by_id` of `src/db/queries.rs`: the first row matching the
primary key. -/
def get_item_by_id (st : Store) (id : Int) : Option Item :=
  List.find? (fun it => it.item_id == id) st

/-- The `{:.2}` formatting `get_item_by_id` applies to the price, followed
by the `parse::<f64>().unwrap_or(0.0)` the update path applies to the
formatted text: rounding to two decimals. Rust format rounds ties to even;
the tie case (an exact half-cent) is outside every price in this
development. -/
def round2 (q : Rat) : Rat :=
  ((q * 100 + 1 / 2).floor : Rat) / 100

/-- The effect of one `UPDATE items SET ... WHERE item_id = ?` statement
built by `update_item` in `src/db/queries.rs` on the matched row: each
supplied field is written, `last_updated` always is. -/
def update_item_fields (it : Item) (title : Option String) (price : Option Rat)
    (quantity : Option Int) (category condition brand upc : Option String)
    (now : String) : Item :=
  { it with
    title := title.getD it.title,
    price := price.getD it.price,
    quantity := quantity.getD it.quantity,
    category := category.getD it.category,
    condition := condition.getD it.condition,
    brand := brand.getD it.brand,
    upc := upc.getD it.upc,
    last_updated := now }

/-- `update_item` of `src/db/queries.rs`: apply the SET clauses to the row
matching the key; zero affected rows is an error, as in the source. -/
def update_item (st : Store) (id : Int) (title : Option String) (price : Option Rat)
    (quantity : Option Int) (category condition brand upc : Option String)
    (now : String) : Except String Store :=
  if (get_item_by_id st id).isSome then
    .ok (st.map (fun it =>
      if it.item_id == id then
        update_item_fields it title price quantity category condition brand upc now
      else it))
  else .error "ExecuteReturnedResults"

/-- `REQUIRED_FIELDS` of `src/commands/import.rs`. -/
def REQUIRED_FIELDS : List String :=
  ["item_id", "title", "description", "price", "quantity",
   "upc", "category", "condition", "brand"]

/-- `validate_headers` of `src/commands/import.rs`: bail on the first
required column name missing from the header, in the fixed order. -/
def validate_headers (headers : List String) : Except String Unit :=
  match REQUIRED_FIELDS.find? (fun f => !(headers.contains f)) with
  | some f => .error ("Missing required field: " ++ f)
  | none => .ok ()

/-- The `get_field` closure of `process_row`: position of the column in
the header, then the cell at that position, defaulting to the empty
string. -/
def get_field (headers row : List String) (f : String) : String :=
  ((headers.findIdx? (· == f)).bind (fun pos => row.get? pos)).getD ""

/-- The cell under a named column as an `Option`, as `handle_import`
reads `brand` and `upc` (`record.get(position)` with `usize::MAX` for a
missing column, which always yields `None`). -/
def rowCell (headers row : List String) (f : String) : Option String :=
  (headers.findIdx? (· == f)).bind (fun pos => row.get? pos)

/-- The mutable locals of `process_row` after field extraction and
numeric parsing: a failed parse leaves the sentinel -1. -/
structure ImportFields where
  title : String
  description : String
  price_str : String
  quantity_str : String
  upc : String
  category : String
  condition : String
  brand : String
  price : Rat
  quantity : Int
deriving DecidableEq, Repr

/-- Field extraction and numeric parsing of `process_row`
(`src/commands/import.rs`, the lines before validation). -/
def initImportFields (headers row : List String) : ImportFields :=
  { title := get_field headers row "title",
    description := get_field headers row "description",
    price_str := get_field headers row "price",
    quantity_str := get_field headers row "quantity",
    upc := get_field headers row "upc",
    category := get_field headers row "category",
    condition := get_field headers row "condition",
    brand := get_field headers row "brand",
    price := (parseF64 (get_field headers row "price")).getD (-1),
    quantity := (parseI32 (get_field headers row "quantity")).getD (-1) }

/-- The empty-string-to-None coercion `process_row` applies to `brand`
and `upc` before validation. -/
def strOpt (s : String) : Option String :=
  if s.isEmpty then none else some s

/-- The per-error tagging loop of `process_row`: set the 1-based row
number and replace the value by the raw cell text of the named field. -/
def tagImportError (f : ImportFields) (rowIdx : Nat) (e : ValidationError) :
    ValidationError :=
  { e with
    row := some (rowIdx + 1),
    value :=
      match e.field with
      | "title" => some f.title
      | "price" => some f.price_str
      | "quantity" => some f.quantity_str
      | "category" => some f.category
      | "condition" => some f.condition
      | "brand" => some f.brand
      | "upc" => some f.upc
      | _ => none }

/-- The validation `process_row` runs on the extracted fields, with the
row/value tagging applied. -/
def importValidation (headers row : List String) (rowIdx : Nat) :
    List ValidationError :=
  let f := initImportFields headers row
  (validate_item_ebay f.title f.price f.quantity f.category f.condition
    (strOpt f.brand) (strOpt f.upc)).map (tagImportError f rowIdx)

/-- One prompt of the interactive loops: `read_line` then `trim`; an
empty (or whitespace) line, or end of input, is a skip. -/
def promptInput (inputs : List String) : Option String × List String :=
  match inputs with
  | [] => (none, [])
  | i :: rest =>
      (if (rustTrim i).isEmpty then none else some (rustTrim i), rest)

/-- The field-dispatch of the import correction loop: a corrected string
is stored verbatim; a corrected numeric value that fails to parse keeps
the prior value (`unwrap_or(price)` / `unwrap_or(quantity)`); an unknown
field is a no-op. -/
def applyImportCorrection (f : ImportFields) (field v : String) : ImportFields :=
  match field with
  | "title" => { f with title := v }
  | "price" => { f with price := (parseF64 v).getD f.price }
  | "quantity" => { f with quantity := (parseI32 v).getD f.quantity }
  | "category" => { f with category := v }
  | "condition" => { f with condition := v }
  | "brand" => { f with brand := v }
  | "upc" => { f with upc := v }
  | _ => f

/-- The interactive correction loop of `process_row`: one prompt per
error; an empty input abandons the row (`none`). -/
def importSession (f : ImportFields) (errs : List ValidationError)
    (inputs : List String) : Option ImportFields × List String :=
  match errs with
  | [] => (some f, inputs)
  | e :: rest =>
      match promptInput inputs with
      | (none, rest') => (none, rest')
      | (some v, rest') => importSession (applyImportCorrection f e.field v) rest rest'

/-- `process_row` of `src/commands/import.rs`: validate, correct or skip,
re-validate, insert. `some f` is a persisted row (the insert succeeds:
validation passed, which implies the schema CHECK constraints), `none` a
skipped one. -/
def process_row (headers row : List String) (rowIdx : Nat)
    (nonInteractive : Bool) (inputs : List String) :
    Option ImportFields × List String :=
  let f := initImportFields headers row
  let validation := importValidation headers row rowIdx
  if validation.isEmpty then (some f, inputs)
  else if nonInteractive then (none, inputs)
  else
    match importSession f validation inputs with
    | (none, rest) => (none, rest)
    | (some f2, rest) =>
        let reval := validate_item_ebay f2.title f2.price f2.quantity f2.category
          f2.condition (strOpt f2.brand) (strOpt f2.upc)
        if reval.isEmpty then (some f2, rest) else (none, rest)

/-- The re-validation `handle_import` runs on a skipped row before
appending its errors to the failure ledger (`src/commands/import.rs`,
the `Ok(false)` arm). -/
def handleImportRevalidate (headers row : List String) : List ValidationError :=
  validate_item_ebay
    ((rowCell headers row "title").getD "")
    ((parseF64 ((rowCell headers row "price").getD "")).getD (-1))
    ((parseI32 ((rowCell headers row "quantity").getD "")).getD (-1))
    ((rowCell headers row "category").getD "")
    ((rowCell headers row "condition").getD "")
    (rowCell headers row "brand")
    (rowCell headers row "upc")

/-- Outcome of one import batch: items persisted in order, the failure
ledger, the printed counters, and whether the ledger file is written. -/
structure ImportSummary where
  inserted : List ImportFields
  ledger : List ValidationError
  imported : Nat
  skipped : Nat
  ledgerWritten : Bool
deriving DecidableEq, Repr

/-- The row loop of `handle_import`: persist the rows `process_row`
accepts, append the re-validated errors of the rows it rejects with
their 1-based row number. -/
def processRowsAux (headers : List String) (nonInteractive : Bool) :
    Nat → List (List String) → List String → ImportSummary
  | _, [], _ => ⟨[], [], 0, 0, false⟩
  | rowIdx, r :: rest, inputs =>
      match process_row headers r rowIdx nonInteractive inputs with
      | (some f, inputs') =>
          let s := processRowsAux headers nonInteractive (rowIdx + 1) rest inputs'
          { s with inserted := f :: s.inserted, imported := s.imported + 1 }
      | (none, inputs') =>
          let errs := (handleImportRevalidate headers r).map
            (fun e => { e with row := some (rowIdx + 1) })
          let s := processRowsAux headers nonInteractive (rowIdx + 1) rest inputs'
          { s with ledger := errs ++ s.ledger, skipped := s.skipped + 1 }

/-- `handle_import` of `src/commands/import.rs` over an already-read
file: header validation aborts the whole batch before any row; otherwise
every row is processed and the ledger file is written at batch end
exactly when the ledger is non-empty. -/
def handle_import (headers : List String) (rows : List (List String))
    (nonInteractive : Bool) (inputs : List String) : Except String ImportSummary :=
  match validate_headers headers with
  | .error e => .error e
  | .ok _ =>
      let s := processRowsAux headers nonInteractive 0 rows inputs
      .ok { s with ledgerWritten := !s.ledger.isEmpty }

/-- `UpdateRow` of `src/commands/update.rs`: the typed candidate of one
update row; `none` is a field the row did not supply. -/
structure UpdateRow where
  id : Int
  title : Option String
  price : Option Rat
  quantity : Option Int
  condition : Option String
  category : Option String
  brand : Option String
  upc : Option String
deriving DecidableEq, Repr

/-- The all-unset row `from_record` starts from (and `update_from_retry`
builds its candidate from). -/
def emptyUpdateRow : UpdateRow :=
  ⟨0, none, none, none, none, none, none, none⟩

/-- One iteration of the `from_record` loop: look the header up (a cell
beyond the header list is fatal), skip a cell that is blank after
trimming, otherwise parse/store the trimmed text under the matching
field; an unknown header is a no-op. -/
def fromRecordStep (headers : List String) (rowNum : Nat) (acc : UpdateRow)
    (i : Nat) (v : String) : Except String UpdateRow :=
  match headers.get? i with
  | none => .error "Missing header"
  | some h =>
      let t := rustTrim v
      if t.isEmpty then .ok acc
      else
        match h with
        | "id" =>
            match parseI64 t with
            | some n => .ok { acc with id := n }
            | none => .error ("Invalid ID in row " ++ toString rowNum)
        | "title" => .ok { acc with title := some t }
        | "price" =>
            match parseF64 t with
            | some p => .ok { acc with price := some p }
            | none => .error ("Invalid price in row " ++ toString rowNum)
        | "quantity" =>
            match parseI32 t with
            | some q => .ok { acc with quantity := some q }
            | none => .error ("Invalid quantity in row " ++ toString rowNum)
        | "condition" => .ok { acc with condition := some t }
        | "category" => .ok { acc with category := some t }
        | "brand" => .ok { acc with brand := some t }
        | "upc" => .ok { acc with upc := some t }
        | _ => .ok acc

/-- The enumerated fold of `from_record` over the cells of the record. -/
def fromRecordAux (headers : List String) (rowNum : Nat) :
    Nat → UpdateRow → List String → Except String UpdateRow
  | _, acc, [] => .ok acc
  | i, acc, v :: rest =>
      match fromRecordStep headers rowNum acc i v with
      | .error e => .error e
      | .ok acc' => fromRecordAux headers rowNum (i + 1) acc' rest

/-- `UpdateRow::from_record` of `src/commands/update.rs`. -/
def UpdateRow.from_record (record headers : List String) (rowNum : Nat) :
    Except String UpdateRow :=
  match fromRecordAux headers rowNum 0 emptyUpdateRow record with
  | .error e => .error e
  | .ok u =>
      if u.id = 0 then .error ("Missing ID in row " ++ toString rowNum)
      else .ok u

/-- `UpdateRow::is_field_provided` of `src/commands/update.rs`. -/
def UpdateRow.is_field_provided (u : UpdateRow) (field : String) : Bool :=
  match field with
  | "id" => true
  | "title" => u.title.isSome
  | "price" => u.price.isSome
  | "quantity" => u.quantity.isSome
  | "condition" => u.condition.isSome
  | "category" => u.category.isSome
  | "brand" => u.brand.isSome
  | "upc" => u.upc.isSome
  | _ => false

/-- First of two options, `Option::or`. -/
def opOr (a b : Option α) : Option α :=
  match a with
  | some x => some x
  | none => b

/-- Empty-string-as-NULL to `Option`, as the update path reads the stored
`brand`/`upc` back. -/
def nzOpt (s : String) : Option String :=
  if s.isEmpty then none else some s

/-- The effective values `update_from_csv` validates: each supplied field
of the row, falling back to the stored record (the stored price goes
through the two-decimal format/parse round trip, the stored quantity
round-trips exactly). -/
def mergedValidation (row : UpdateRow) (it : Item) : List ValidationError :=
  validate_item_ebay
    (row.title.getD it.title)
    (row.price.getD (round2 it.price))
    (row.quantity.getD it.quantity)
    (row.category.getD it.category)
    (row.condition.getD it.condition)
    (opOr row.brand (nzOpt it.brand))
    (opOr row.upc (nzOpt it.upc))

/-- The field-dispatch of the interactive CSV-update loop: a corrected
string is stored; a corrected numeric value that fails to parse appends
one format error tagged with the row number and leaves the field
untouched. -/
def updCsvApply (rowNum : Nat) (c : UpdateRow) (acc : List ValidationError)
    (field input : String) : UpdateRow × List ValidationError :=
  match field with
  | "title" => ({ c with title := some input }, acc)
  | "price" =>
      match parseF64 input with
      | some p => ({ c with price := some p }, acc)
      | none => (c, acc ++ [⟨"price", "Invalid price format", some rowNum, some input⟩])
  | "quantity" =>
      match parseI32 input with
      | some q => ({ c with quantity := some q }, acc)
      | none => (c, acc ++ [⟨"quantity", "Invalid quantity format", some rowNum, some input⟩])
  | "condition" => ({ c with condition := some input }, acc)
  | "category" => ({ c with category := some input }, acc)
  | "brand" => ({ c with brand := some input }, acc)
  | "upc" => ({ c with upc := some input }, acc)
  | _ => (c, acc)

/-- The interactive correction loop of `update_from_csv`: visit each
error of a supplied field once; an empty input pushes the error itself
to the ledger and the loop continues. -/
def csvSession (rowNum : Nat) :
    List ValidationError → UpdateRow → List ValidationError → List String →
    UpdateRow × List ValidationError × List String
  | [], c, acc, inputs => (c, acc, inputs)
  | e :: rest, c, acc, inputs =>
      if !(c.is_field_provided e.field) then csvSession rowNum rest c acc inputs
      else
        match promptInput inputs with
        | (none, inputs') => csvSession rowNum rest c (acc ++ [e]) inputs'
        | (some t, inputs') =>
            let (c', acc') := updCsvApply rowNum c acc e.field t
            csvSession rowNum rest c' acc' inputs'

/-- The re-validation `update_from_csv` runs after the correction loop:
each corrected field, falling back to the value the first validation
used. -/
def csvRevalidate (c row : UpdateRow) (it : Item) : List ValidationError :=
  validate_item_ebay
    (c.title.getD (row.title.getD it.title))
    (c.price.getD (row.price.getD (round2 it.price)))
    (c.quantity.getD (row.quantity.getD it.quantity))
    (c.category.getD (row.category.getD it.category))
    (c.condition.getD (row.condition.getD it.condition))
    (opOr c.brand (opOr row.brand (nzOpt it.brand)))
    (opOr c.upc (opOr row.upc (nzOpt it.upc)))

/-- One row of `update_from_csv` (`src/commands/update.rs`): extract the
row (a malformed row aborts the batch), look the item up, validate the
merged values, correct interactively or skip with the supplied-field
errors in non-interactive mode, and on success apply the partial
update. Returns the store, the ledger entries this row appends, and the
remaining input lines. -/
def updateCsvRow (st : Store) (now : String) (headers record : List String)
    (rowNum : Nat) (interactive : Bool) (inputs : List String) :
    Except String (Store × List ValidationError × List String) :=
  match UpdateRow.from_record record headers rowNum with
  | .error e => .error e
  | .ok row =>
      match get_item_by_id st row.id with
      | none =>
          .ok (st, [⟨"id", "Item not found", some rowNum, some (toString row.id)⟩], inputs)
      | some it =>
          let validation := mergedValidation row it
          if validation.isEmpty then
            match update_item st row.id row.title row.price row.quantity
                row.category row.condition row.brand row.upc now with
            | .ok st' => .ok (st', [], inputs)
            | .error e => .error e
          else if !interactive then
            .ok (st, validation.filter (fun e => row.is_field_provided e.field), inputs)
          else
            let (c, acc, inputs') := csvSession rowNum validation row [] inputs
            let reval := csvRevalidate c row it
            if !reval.isEmpty then .ok (st, acc ++ reval, inputs')
            else
              match update_item st c.id c.title c.price c.quantity
                  c.category c.condition c.brand c.upc now with
              | .ok st' => .ok (st', acc, inputs')
              | .error e => .error e

/-- Outcome of one CSV-update or retry batch. -/
structure BatchSummary where
  store : Store
  ledger : List ValidationError
  ledgerWritten : Bool
deriving DecidableEq, Repr

/-- The row loop of `update_from_csv`, with the source's row counter
(initialized to 1 and incremented before each record, so the first data
row is number 2). -/
def updateCsvAux (now : String) (headers : List String) (interactive : Bool) :
    Store → Nat → List (List String) → List String →
    Except String (Store × List ValidationError)
  | st, _, [], _ => .ok (st, [])
  | st, n, r :: rest, inputs =>
      match updateCsvRow st now headers r (n + 1) interactive inputs with
      | .error e => .error e
      | .ok (st', add, inputs') =>
          match updateCsvAux now headers interactive st' (n + 1) rest inputs' with
          | .error e => .error e
          | .ok (stF, ledger) => .ok (stF, add ++ ledger)

/-- `update_from_csv` of `src/commands/update.rs` over an already-read
file: the ledger file is written at batch end exactly when the ledger is
non-empty. -/
def update_from_csv (st : Store) (now : String) (headers : List String)
    (records : List (List String)) (interactive : Bool) (inputs : List String) :
    Except String BatchSummary :=
  match updateCsvAux now headers interactive st 1 records inputs with
  | .error e => .error e
  | .ok (stF, ledger) => .ok ⟨stF, ledger, !ledger.isEmpty⟩

/-- The largest finite `f64`, the sentinel `update_from_retry` validates
an unsupplied price with: `(2^53 - 1) * 2^971`. -/
def f64MAX : Rat := mkRat (((2 ^ 53 - 1) * 2 ^ 971 : Nat) : Int) 1

/-- `i32::MAX`, the sentinel `update_from_retry` validates an unsupplied
quantity with. -/
def i32MAX : Int := 2147483647

/-- The candidate row `update_from_retry` builds for one stored error:
the id parsed from the carried value, everything else unset. -/
def retryDefaultRow (v : Option String) : UpdateRow :=
  { emptyUpdateRow with id := (parseI64 (v.getD "0")).getD 0 }

/-- The re-validation `update_from_retry` runs: the candidate row over
sentinel/empty defaults — it never consults the stored record. -/
def retryValidation (rd : UpdateRow) : List ValidationError :=
  validate_item_ebay
    (rd.title.getD "")
    (rd.price.getD f64MAX)
    (rd.quantity.getD i32MAX)
    (rd.category.getD "")
    (rd.condition.getD "")
    rd.brand
    rd.upc

/-- The field-dispatch of the retry correction: `error` is an entry
pushed to the new ledger (a parse failure), `ok none` the silent
`continue` of an unknown field, `ok (some rd)` the corrected candidate. -/
def applyRetryCorrection (rd : UpdateRow) (rowNum : Nat) (field t : String) :
    Except ValidationError (Option UpdateRow) :=
  match field with
  | "id" =>
      match parseI64 t with
      | some n => .ok (some { rd with id := n })
      | none => .error ⟨"id", "Invalid ID format", some rowNum, some t⟩
  | "title" => .ok (some { rd with title := some t })
  | "price" =>
      match parseF64 t with
      | some p => .ok (some { rd with price := some p })
      | none => .error ⟨"price", "Invalid price format", some rowNum, some t⟩
  | "quantity" =>
      match parseI32 t with
      | some q => .ok (some { rd with quantity := some q })
      | none => .error ⟨"quantity", "Invalid quantity format", some rowNum, some t⟩
  | "condition" => .ok (some { rd with condition := some t })
  | "category" => .ok (some { rd with category := some t })
  | "brand" => .ok (some { rd with brand := some t })
  | "upc" => .ok (some { rd with upc := some t })
  | _ => .ok none

/-- One stored error of `update_from_retry` (`src/commands/update.rs`):
skip (pushing the error back) when non-interactive or on empty input;
otherwise apply the one corrected value, re-validate over sentinel/empty
defaults, and on an empty outcome apply the partial update. -/
def retryStep (st : Store) (now : String) (interactive : Bool)
    (e : ValidationError) (inputs : List String) :
    Except String (Store × List ValidationError) × List String :=
  let rowNum := e.row.getD 0
  if !interactive then (.ok (st, [e]), inputs)
  else
    match promptInput inputs with
    | (none, inputs') => (.ok (st, [e]), inputs')
    | (some t, inputs') =>
        match applyRetryCorrection (retryDefaultRow e.value) rowNum e.field t with
        | .error pushed => (.ok (st, [pushed]), inputs')
        | .ok none => (.ok (st, []), inputs')
        | .ok (some rd) =>
            match get_item_by_id st rd.id with
            | none =>
                (.ok (st, [⟨"id", "Item not found", some rowNum, some (toString rd.id)⟩]),
                 inputs')
            | some _ =>
                let validation := retryValidation rd
                if validation.isEmpty then
                  match update_item st rd.id rd.title rd.price rd.quantity
                      rd.category rd.condition rd.brand rd.upc now with
                  | .ok st' => (.ok (st', []), inputs')
                  | .error err => (.error err, inputs')
                else (.ok (st, validation), inputs')

/-- The error loop of `update_from_retry`. -/
def retryRunAux (now : String) (interactive : Bool) :
    Store → List ValidationError → List String →
    Except String (Store × List ValidationError)
  | st, [], _ => .ok (st, [])
  | st, e :: rest, inputs =>
      match retryStep st now interactive e inputs with
      | (.error msg, _) => .error msg
      | (.ok (st', add), inputs') =>
          match retryRunAux now interactive st' rest inputs' with
          | .error m => .error m
          | .ok (stF, ledger) => .ok (stF, add ++ ledger)

/-- `update_from_retry` of `src/commands/update.rs` over an already-read
retry file: the new ledger file is written at batch end exactly when the
new ledger is non-empty. -/
def update_from_retry (st : Store) (now : String) (interactive : Bool)
    (errors : List ValidationError) (inputs : List String) :
    Except String BatchSummary :=
  match retryRunAux now interactive st errors inputs with
  | .error e => .error e
  | .ok (stF, ledger) => .ok ⟨stF, ledger, !ledger.isEmpty⟩

/-! Concrete inputs for witnesses and counterexamples. -/

/-- A header row with all nine required import columns. -/
def hdrs9 : List String :=
  ["item_id", "title", "description", "price", "quantity",
   "upc", "category", "condition", "brand"]

/-- A header row missing the `upc` column. -/
def hdrsNoUpc : List String :=
  ["item_id", "title", "description", "price", "quantity",
   "category", "condition", "brand"]

/-- An import row whose price cell does not parse as a number. -/
def rowAbc : List String :=
  ["1", "Shoe", "", "abc", "1", "", "x", "new", ""]

/-- An import row whose price and quantity cells do not parse. -/
def rowBad : List String :=
  ["1", "Shoe", "", "abc", "xyz", "", "x", "new", ""]

/-- An import row with a parseable but negative price. -/
def rowNeg : List String :=
  ["1", "Shoe", "", "-5", "1", "", "x", "new", ""]

/-- A stored catalog record with id 7. -/
def item7 : Item :=
  ⟨7, "Item One", 10, 5, "sneakers", "new", "Nike", "123456789012", "t0"⟩

/-- An update row supplying only a price for id 7. -/
def rowPrice7 : UpdateRow :=
  ⟨7, none, some (mkRat 1999 100), none, none, none, none, none⟩

/-- The update row supplying only the price -5 for id 7, as
`from_record` extracts it. -/
def rowM5 : UpdateRow :=
  ⟨7, none, some (mkRat (-5) 1), none, none, none, none, none⟩

/-- The corrected retry candidate: id 7 with a corrected title. -/
def rd7 : UpdateRow :=
  { emptyUpdateRow with id := 7, title := some "NewTitle" }

/-- A title of eighty spaces: eighty characters, non-empty, whitespace. -/
def spaces80 : String := ⟨List.replicate 80 ' '⟩

/-- A title of eighty two-byte characters: eighty characters, 160 bytes. -/
def eAcute80 : String := ⟨List.replicate 80 'é'⟩

/-- A brand of 101 spaces: more than 100 characters, all whitespace. -/
def spaces101 : String := ⟨List.replicate 101 ' '⟩

/-- A brand of 51 two-byte characters: 51 characters, 102 bytes. -/
def eAcute51 : String := ⟨List.replicate 51 'é'⟩

/-- A title of eighty ASCII letters. -/
def a80 : String := ⟨List.replicate 80 'a'⟩

/-- A title of eighty-one ASCII letters. -/
def a81 : String := ⟨List.replicate 81 'a'⟩

/-- A title of eighty-one characters whose first is two bytes wide. -/
def e1a80 : String := ⟨'é' :: List.replicate 80 'a'⟩

/-- The update row extracted from a record that supplies id 7 and a
blank title cell: only the id is set. -/
def row7only : UpdateRow :=
  ⟨7, none, none, none, none, none, none, none⟩

/-- A brand of 101 ASCII letters. -/
def a101 : String := ⟨List.replicate 101 'a'⟩

/-! Helper lemmas about the validators. -/

/-- Errors of the eBay title validator: field `title`, no row number. -/
theorem validate_title_ebay_shape (s : String) :
    ∀ e ∈ validate_title_ebay s, e.field = "title" ∧ e.row = none := by
  unfold validate_title_ebay
  intro e he
  rcases List.mem_append.1 he with h | h <;> (split at h <;> simp_all)

/-- Errors of the price validator: field `price`, no row number. -/
theorem validate_price_shape (p : Rat) :
    ∀ e ∈ validate_price p, e.field = "price" ∧ e.row = none := by
  unfold validate_price
  intro e he
  rcases List.mem_append.1 he with h | h <;> (split at h <;> simp_all)

/-- Errors of the quantity validator: field `quantity`, no row number. -/
theorem validate_quantity_shape (q : Int) :
    ∀ e ∈ validate_quantity q, e.field = "quantity" ∧ e.row = none := by
  unfold validate_quantity
  intro e he
  rcases List.mem_append.1 he with h | h <;> (split at h <;> simp_all)

/-- Errors of the category validator: field `category`, no row number. -/
theorem validate_category_shape (s : String) :
    ∀ e ∈ validate_category s, e.field = "category" ∧ e.row = none := by
  unfold validate_category
  intro e he
  split at he <;> simp_all

/-- Errors of the condition validator: field `condition`, no row number. -/
theorem validate_condition_shape (s : String) :
    ∀ e ∈ validate_condition s, e.field = "condition" ∧ e.row = none := by
  unfold validate_condition
  intro e he
  split at he <;> simp_all

/-- Errors of the brand validator: field `brand`, no row number. -/
theorem validate_brand_shape (s : String) :
    ∀ e ∈ validate_brand s, e.field = "brand" ∧ e.row = none := by
  unfold validate_brand
  intro e he
  split at he <;> simp_all

/-- Errors of the eBay UPC validator: field `upc`, no row number. -/
theorem validate_upc_ebay_shape (s : String) :
    ∀ e ∈ validate_upc_ebay s, e.field = "upc" ∧ e.row = none := by
  unfold validate_upc_ebay
  intro e he
  split at he <;> simp_all

/-- Every error of the per-record eBay validation carries no row number. -/
theorem validate_item_ebay_row_none (t : String) (p : Rat) (q : Int)
    (cat cond : String) (b u : Option String) :
    ∀ e ∈ validate_item_ebay t p q cat cond b u, e.row = none := by
  intro e he
  unfold validate_item_ebay at he
  simp only [List.append_assoc, List.mem_append] at he
  rcases he with h | h | h | h | h | h | h
  · exact (validate_title_ebay_shape t e h).2
  · exact (validate_price_shape p e h).2
  · exact (validate_quantity_shape q e h).2
  · exact (validate_category_shape cat e h).2
  · exact (validate_condition_shape cond e h).2
  · cases b with
    | some brand => exact (validate_brand_shape brand e (by simpa [validateOptBrand] using h)).2
    | none => simp [validateOptBrand] at h
  · cases u with
    | some upc => exact (validate_upc_ebay_shape upc e (by simpa [validateOptUpcEbay] using h)).2
    | none => simp [validateOptUpcEbay] at h

/-- Errors of the optional brand validation: field `brand`. -/
theorem validateOptBrand_field (b : Option String) :
    ∀ e ∈ validateOptBrand b, e.field = "brand" := by
  intro e he
  cases b with
  | some s => exact (validate_brand_shape s e (by simpa [validateOptBrand] using he)).1
  | none => simp [validateOptBrand] at he

/-- Errors of the optional eBay UPC validation: field `upc`. -/
theorem validateOptUpcEbay_field (u : Option String) :
    ∀ e ∈ validateOptUpcEbay u, e.field = "upc" := by
  intro e he
  cases u with
  | some s => exact (validate_upc_ebay_shape s e (by simpa [validateOptUpcEbay] using he)).1
  | none => simp [validateOptUpcEbay] at he

/-- Filtering the per-record outcome to the price field keeps exactly the
price validator's errors. -/
theorem validate_item_ebay_filter_price (t : String) (p : Rat) (q : Int)
    (cat cond : String) (b u : Option String) :
    (validate_item_ebay t p q cat cond b u).filter (fun e => e.field == "price") =
      validate_price p := by
  unfold validate_item_ebay
  simp only [List.filter_append]
  rw [List.filter_eq_nil.2 (fun e he => by simp [(validate_title_ebay_shape t e he).1]),
    List.filter_eq_self.2 (fun e he => by simp [(validate_price_shape p e he).1]),
    List.filter_eq_nil.2 (fun e he => by simp [(validate_quantity_shape q e he).1]),
    List.filter_eq_nil.2 (fun e he => by simp [(validate_category_shape cat e he).1]),
    List.filter_eq_nil.2 (fun e he => by simp [(validate_condition_shape cond e he).1]),
    List.filter_eq_nil.2 (fun e he => by simp [validateOptBrand_field b e he]),
    List.filter_eq_nil.2 (fun e he => by simp [validateOptUpcEbay_field u e he])]
  simp

/-- Filtering the per-record outcome to the quantity field keeps exactly
the quantity validator's errors. -/
theorem validate_item_ebay_filter_quantity (t : String) (p : Rat) (q : Int)
    (cat cond : String) (b u : Option String) :
    (validate_item_ebay t p q cat cond b u).filter (fun e => e.field == "quantity") =
      validate_quantity q := by
  unfold validate_item_ebay
  simp only [List.filter_append]
  rw [List.filter_eq_nil.2 (fun e he => by simp [(validate_title_ebay_shape t e he).1]),
    List.filter_eq_nil.2 (fun e he => by simp [(validate_price_shape p e he).1]),
    List.filter_eq_self.2 (fun e he => by simp [(validate_quantity_shape q e he).1]),
    List.filter_eq_nil.2 (fun e he => by simp [(validate_category_shape cat e he).1]),
    List.filter_eq_nil.2 (fun e he => by simp [(validate_condition_shape cond e he).1]),
    List.filter_eq_nil.2 (fun e he => by simp [validateOptBrand_field b e he]),
    List.filter_eq_nil.2 (fun e he => by simp [validateOptUpcEbay_field u e he])]
  simp

/-- The tagging of `process_row` does not touch the field name. -/
theorem tagImportError_field (f : ImportFields) (rowIdx : Nat) (e : ValidationError) :
    (tagImportError f rowIdx e).field = e.field := rfl

/-- C1: if the price (resp. quantity) cell of an import row fails to
parse, the sentinel -1 is validated instead, so the validation outcome
for that field is exactly one error carrying the non-negativity message
(tagged with the 1-based row number and the raw cell text) — no
parse-format error is reported. -/
theorem import_parse_failure_reports_nonnegative (headers row : List String) (rowIdx : Nat) :
    (parseF64 (get_field headers row "price") = none →
      (importValidation headers row rowIdx).filter (fun e => e.field == "price") =
        [⟨"price", "Price must be non-negative", some (rowIdx + 1),
          some (get_field headers row "price")⟩])
    ∧ (parseI32 (get_field headers row "quantity") = none →
      (importValidation headers row rowIdx).filter (fun e => e.field == "quantity") =
        [⟨"quantity", "Quantity must be non-negative", some (rowIdx + 1),
          some (get_field headers row "quantity")⟩]) := by
  constructor
  · intro hp
    unfold importValidation
    rw [List.filter_map,
      List.filter_congr (fun e _ => by rw [Function.comp_apply, tagImportError_field]),
      validate_item_ebay_filter_price]
    have hsent : (initImportFields headers row).price = -1 := by
      simp [initImportFields, hp]
    rw [hsent, show validate_price (-1) =
      [⟨"price", "Price must be non-negative", none, some "-1"⟩] from by decide]
    rfl
  · intro hq
    unfold importValidation
    rw [List.filter_map,
      List.filter_congr (fun e _ => by rw [Function.comp_apply, tagImportError_field]),
      validate_item_ebay_filter_quantity]
    have hsent : (initImportFields headers row).quantity = -1 := by
      simp [initImportFields, hq]
    rw [hsent, show validate_quantity (-1) =
      [⟨"quantity", "Quantity must be non-negative", none, some "-1"⟩] from by decide]
    rfl

/-- Witness for C1: the row whose price cell is `abc` and quantity cell
is `xyz` reports the two non-negativity errors. -/
theorem import_parse_failure_reports_nonnegative_witness :
    (importValidation hdrs9 rowBad 0).filter (fun e => e.field == "price") =
      [⟨"price", "Price must be non-negative", some 1, some "abc"⟩] ∧
    (importValidation hdrs9 rowBad 0).filter (fun e => e.field == "quantity") =
      [⟨"quantity", "Quantity must be non-negative", some 1, some "xyz"⟩] :=
  ⟨(import_parse_failure_reports_nonnegative hdrs9 rowBad 0).1 (by decide),
   (import_parse_failure_reports_nonnegative hdrs9 rowBad 0).2 (by decide)⟩

/-- C2: a header missing one of the nine required column names makes the
whole import batch fail, for every row list alike (so before any row is
read), with an error naming a missing column; a header containing all
nine names, in any order, proceeds to the row loop. -/
theorem import_header_gate (headers : List String) (rows : List (List String))
    (ni : Bool) (inputs : List String) :
    ((∃ c ∈ REQUIRED_FIELDS, headers.contains c = false) →
      ∃ c ∈ REQUIRED_FIELDS, headers.contains c = false ∧
        ∀ (rows' : List (List String)) (inputs' : List String),
          handle_import headers rows' ni inputs' = .error ("Missing required field: " ++ c))
    ∧ ((∀ c ∈ REQUIRED_FIELDS, headers.contains c = true) →
      handle_import headers rows ni inputs =
        .ok { processRowsAux headers ni 0 rows inputs with
              ledgerWritten := !(processRowsAux headers ni 0 rows inputs).ledger.isEmpty }) := by
  constructor
  · intro hmiss
    cases hfind : REQUIRED_FIELDS.find? (fun f => !(headers.contains f)) with
    | none =>
        obtain ⟨c, hc, hnc⟩ := hmiss
        have h2 := List.find?_eq_none.1 hfind c hc
        rw [hnc] at h2
        simp at h2
    | some c =>
        refine ⟨c, List.mem_of_find?_eq_some hfind, ?_, ?_⟩
        · have := List.find?_some hfind
          simpa using this
        · intro rows' inputs'
          unfold handle_import validate_headers
          rw [hfind]
  · intro hall
    have hfind : REQUIRED_FIELDS.find? (fun f => !(headers.contains f)) = none := by
      rw [List.find?_eq_none]
      intro c hc
      show ¬(!(headers.contains c)) = true
      rw [hall c hc]
      decide
    unfold handle_import validate_headers
    rw [hfind]

/-- Witness for C2: dropping the `upc` column aborts the batch naming a
missing column; the full header proceeds to the row loop. -/
theorem import_header_gate_witness :
    (∃ c ∈ REQUIRED_FIELDS, hdrsNoUpc.contains c = false ∧
      ∀ (rows' : List (List String)) (inputs' : List String),
        handle_import hdrsNoUpc rows' true inputs' = .error ("Missing required field: " ++ c))
    ∧ handle_import hdrs9 [] true [] =
        .ok { processRowsAux hdrs9 true 0 [] [] with
              ledgerWritten := !(processRowsAux hdrs9 true 0 [] []).ledger.isEmpty } :=
  ⟨(import_header_gate hdrsNoUpc [] true []).1 ⟨"upc", by decide, by decide⟩,
   (import_header_gate hdrs9 [] true []).2 (by decide)⟩

/-- Every ledger entry the import row loop accumulates carries a row
number: both the blank-row and the skipped-row entries are tagged. -/
theorem processRowsAux_ledger_rows (headers : List String) (ni : Bool) :
    ∀ (rows : List (List String)) (i : Nat) (inputs : List String),
      ∀ e ∈ (processRowsAux headers ni i rows inputs).ledger, e.row.isSome := by
  intro rows
  induction rows with
  | nil =>
      intro i inputs e he
      simp [processRowsAux] at he
  | cons r rest ih =>
      intro i inputs e he
      cases hpr : process_row headers r i ni inputs with
      | mk o inputs' =>
          simp only [processRowsAux, hpr] at he
          cases o with
          | some f =>
              exact ih (i + 1) inputs' e he
          | none =>
              simp only [List.mem_append] at he
              rcases he with he | he
              · simp only [List.mem_map] at he
                obtain ⟨a, _, rfl⟩ := he
                rfl
              · exact ih (i + 1) inputs' e he

/-- Counterexample to C3 as stated: a non-interactive CSV update whose
only row supplies an invalid price for an existing item appends the
price error to the ledger with `row = none` — the entry is not tagged
with the 1-based row number the claim requires (and the update path
even counts the header row, so a tagged entry for the first data row
would carry 2). Zero records are persisted (the store is unchanged). -/
theorem update_ledger_entry_lacks_row_number :
    update_from_csv [item7] "T1" ["id", "price"] [["7", "-5"]] false [] =
      .ok ⟨[item7], [⟨"price", "Price must be non-negative", none, some "-5"⟩], true⟩ := by
  decide

/-- C3 (amended): a row with at least one validation error in the
non-interactive configuration persists nothing. On the import path the
whole re-validated outcome is appended to the ledger, every entry tagged
with the 1-based row number (all nine columns are present, hence
supplied, there). On the CSV-update path the appended entries are
exactly the outcome restricted to fields the row supplied, but they
carry no row number (`row = none`). -/
theorem noninteractive_invalid_rows_skipped (inputs : List String) :
    (∀ (headers r : List String) (rest : List (List String)) (rowIdx : Nat),
      importValidation headers r rowIdx ≠ [] →
      (processRowsAux headers true rowIdx (r :: rest) inputs =
        (let s := processRowsAux headers true (rowIdx + 1) rest inputs
         { s with
           ledger := ((handleImportRevalidate headers r).map
             (fun e => { e with row := some (rowIdx + 1) })) ++ s.ledger,
           skipped := s.skipped + 1 })
      ∧ ∀ e ∈ (handleImportRevalidate headers r).map
            (fun e => { e with row := some (rowIdx + 1) }),
          e.row = some (rowIdx + 1)))
    ∧ (∀ (st : Store) (now : String) (headers record : List String) (rowNum : Nat)
        (row : UpdateRow) (it : Item),
      UpdateRow.from_record record headers rowNum = .ok row →
      get_item_by_id st row.id = some it →
      mergedValidation row it ≠ [] →
      (updateCsvRow st now headers record rowNum false inputs =
        .ok (st, (mergedValidation row it).filter
          (fun e => row.is_field_provided e.field), inputs)
      ∧ ∀ e ∈ mergedValidation row it, e.row = none)) := by
  constructor
  · intro headers r rest rowIdx h
    have hne : (importValidation headers r rowIdx).isEmpty = false :=
      List.isEmpty_eq_false.2 h
    have hpr : process_row headers r rowIdx true inputs = (none, inputs) := by
      unfold process_row
      simp [hne]
    constructor
    · simp only [processRowsAux, hpr]
    · intro e he
      simp only [List.mem_map] at he
      obtain ⟨a, _, rfl⟩ := he
      rfl
  · intro st now headers record rowNum row it hrec hit hv
    have hne : (mergedValidation row it).isEmpty = false :=
      List.isEmpty_eq_false.2 hv
    constructor
    · unfold updateCsvRow
      rw [hrec]
      simp only [hit, hne]
      rfl
    · intro e he
      simp only [mergedValidation] at he
      exact validate_item_ebay_row_none _ _ _ _ _ _ _ e he

/-- Witness for C3 (amended): the import row with price `-5` is skipped
with a row-tagged ledger entry; the update row with price `-5` is
skipped with an untagged one. -/
theorem noninteractive_invalid_rows_skipped_witness :
    (processRowsAux hdrs9 true 0 [rowNeg] [] =
      (let s := processRowsAux hdrs9 true 1 [] []
       { s with
         ledger := ((handleImportRevalidate hdrs9 rowNeg).map
           (fun e => { e with row := some 1 })) ++ s.ledger,
         skipped := s.skipped + 1 })
    ∧ ∀ e ∈ (handleImportRevalidate hdrs9 rowNeg).map
          (fun e => { e with row := some 1 }),
        e.row = some 1)
    ∧ (updateCsvRow [item7] "T1" ["id", "price"] ["7", "-5"] 2 false [] =
        .ok ([item7], (mergedValidation rowM5 item7).filter
          (fun e => rowM5.is_field_provided e.field), [])
    ∧ ∀ e ∈ mergedValidation rowM5 item7, e.row = none) :=
  ⟨(noninteractive_invalid_rows_skipped []).1 hdrs9 rowNeg [] 0 (by decide),
   (noninteractive_invalid_rows_skipped []).2 [item7] "T1" ["id", "price"] ["7", "-5"]
     2 rowM5 item7 (by decide) (by decide) (by decide)⟩

/-- Counterexample to C4 as stated: an interactive retry run that
corrects a title re-validates against sentinel/empty defaults and
serializes the resulting errors with `row = none` — the written ledger
holds entries carrying no row number. -/
theorem retry_persists_entries_without_row_number :
    (update_from_retry [item7] "T1" true
        [⟨"title", "Title cannot be empty", some 3, some "7"⟩] ["NewTitle"]).map
      (fun s => (s.ledgerWritten, s.ledger.map (fun e => (e.field, e.row)))) =
    .ok (true, [("price", none), ("quantity", none), ("category", none),
      ("condition", none)]) := by
  decide

/-- C4 (amended): for each of the three batch paths the ledger file is
written at batch end exactly when the ledger is non-empty; on the import
path every serialized entry carries a row number, but the update and
retry paths serialize entries with `row = none` (see the
counterexample). -/
theorem ledger_written_at_batch_end_iff_nonempty :
    (∀ headers rows ni inputs s, handle_import headers rows ni inputs = .ok s →
      s.ledgerWritten = !s.ledger.isEmpty ∧ ∀ e ∈ s.ledger, e.row.isSome)
    ∧ (∀ st now headers records interactive inputs s,
        update_from_csv st now headers records interactive inputs = .ok s →
        s.ledgerWritten = !s.ledger.isEmpty)
    ∧ (∀ st now interactive errors inputs s,
        update_from_retry st now interactive errors inputs = .ok s →
        s.ledgerWritten = !s.ledger.isEmpty) := by
  refine ⟨?_, ?_, ?_⟩
  · intro headers rows ni inputs s hs
    unfold handle_import at hs
    cases hv : validate_headers headers with
    | error e => rw [hv] at hs; cases hs
    | ok u =>
        rw [hv] at hs
        cases hs
        exact ⟨rfl, fun e he => processRowsAux_ledger_rows headers ni rows 0 inputs e he⟩
  · intro st now headers records interactive inputs s hs
    unfold update_from_csv at hs
    cases ha : updateCsvAux now headers interactive st 1 records inputs with
    | error e => rw [ha] at hs; cases hs
    | ok p => rw [ha] at hs; cases hs; rfl
  · intro st now interactive errors inputs s hs
    unfold update_from_retry at hs
    cases ha : retryRunAux now interactive st errors inputs with
    | error e => rw [ha] at hs; cases hs
    | ok p => rw [ha] at hs; cases hs; rfl

/-- Witness for C4 (amended): one concrete batch per path. -/
theorem ledger_written_at_batch_end_iff_nonempty_witness :
    ((⟨[], [⟨"price", "Price must be non-negative", some 1, some "-5"⟩], 0, 1, true⟩ :
        ImportSummary).ledgerWritten =
      !(⟨[], [⟨"price", "Price must be non-negative", some 1, some "-5"⟩], 0, 1, true⟩ :
        ImportSummary).ledger.isEmpty
    ∧ ∀ e ∈ (⟨[], [⟨"price", "Price must be non-negative", some 1, some "-5"⟩], 0, 1, true⟩ :
        ImportSummary).ledger, e.row.isSome)
    ∧ (⟨[item7], [⟨"price", "Price must be non-negative", none, some "-5"⟩], true⟩ :
        BatchSummary).ledgerWritten =
      !(⟨[item7], [⟨"price", "Price must be non-negative", none, some "-5"⟩], true⟩ :
        BatchSummary).ledger.isEmpty
    ∧ (⟨[], [⟨"x", "m", none, none⟩], true⟩ : BatchSummary).ledgerWritten =
      !(⟨[], [⟨"x", "m", none, none⟩], true⟩ : BatchSummary).ledger.isEmpty :=
  ⟨(ledger_written_at_batch_end_iff_nonempty.1 hdrs9 [rowNeg] true [] _ (by decide)),
   (ledger_written_at_batch_end_iff_nonempty.2.1 [item7] "T1" ["id", "price"]
     [["7", "-5"]] false [] _ (by decide)),
   (ledger_written_at_batch_end_iff_nonempty.2.2 [] "T" false [⟨"x", "m", none, none⟩]
     [] _ (by decide))⟩

/-- C5: for a retry-file error the user corrects (an accepted corrected
value for the error's field), the re-validation the Retry Loader runs is
`retryValidation` of the corrected candidate — the corrected field
combined with sentinel/empty defaults for every other field, a function
of the candidate alone that never consults the stored record — and the
partial update of the target record is applied to the store exactly when
that outcome is empty. -/
theorem retry_revalidates_defaults_and_updates_on_success (st : Store) (now : String)
    (e : ValidationError) (i : String) (is' : List String) (rd : UpdateRow)
    (hi : (rustTrim i).isEmpty = false)
    (hc : applyRetryCorrection (retryDefaultRow e.value) (e.row.getD 0) e.field
      (rustTrim i) = .ok (some rd))
    (hid : (get_item_by_id st rd.id).isSome) :
    retryStep st now true e (i :: is') =
      (if (retryValidation rd).isEmpty then
        (.ok (st.map (fun it => if it.item_id == rd.id then
          update_item_fields it rd.title rd.price rd.quantity rd.category
            rd.condition rd.brand rd.upc now else it), []), is')
      else (.ok (st, retryValidation rd), is')) := by
  obtain ⟨it, hit⟩ := Option.isSome_iff_exists.1 hid
  have hprompt : promptInput (i :: is') = (some (rustTrim i), is') := by
    simp [promptInput, hi]
  simp only [retryStep, hprompt, hc, hit, Bool.not_true, Bool.false_eq_true, if_false]
  split
  · simp [update_item, hid]
  · rfl

/-- Witness for C5: correcting the title for stored id 7; the defaults
leave the outcome non-empty, so no update is applied. -/
theorem retry_revalidates_defaults_witness :
    retryStep [item7] "T1" true ⟨"title", "Title cannot be empty", some 3, some "7"⟩
        ["NewTitle"] =
      (if (retryValidation rd7).isEmpty then
        (.ok ([item7].map (fun it => if it.item_id == rd7.id then
          update_item_fields it rd7.title rd7.price rd7.quantity rd7.category
            rd7.condition rd7.brand rd7.upc "T1" else it), []), [])
      else (.ok ([item7], retryValidation rd7), [])) :=
  retry_revalidates_defaults_and_updates_on_success [item7] "T1"
    ⟨"title", "Title cannot be empty", some 3, some "7"⟩ "NewTitle" [] rd7
    (by decide) (by decide) (by decide)

/-- Counterexample to C6 as stated: in the import correction session a
non-empty numeric input that fails to parse is swallowed by `unwrap_or`:
the prior value is kept and the session continues, but no format-error
Field Error is appended anywhere — the ledger of this one-row import is
non-empty yet holds no entry with a format message. -/
theorem import_session_appends_no_format_error :
    process_row hdrs9 rowAbc 0 false ["abc"] = (none, []) ∧
    (processRowsAux hdrs9 false 0 [rowAbc] ["abc"]).ledger.filter
      (fun e => e.message == "Invalid price format" ||
        e.message == "Invalid quantity format") = [] ∧
    (processRowsAux hdrs9 false 0 [rowAbc] ["abc"]).ledger ≠ [] := by
  decide

/-- C6 (amended): in the CSV-update correction session, a non-empty
input for a numeric field that fails to parse appends exactly one
format-error Field Error for that field (tagged with the row number and
the offending input), the field keeps its prior value (the candidate row
is passed on unchanged), and the session continues with the remaining
errors. (In the import correction session no format error is appended —
see the counterexample — though there too the prior value is kept and
the session continues.) -/
theorem csv_session_numeric_parse_failure (rowNum : Nat) (e : ValidationError)
    (rest : List ValidationError) (c : UpdateRow) (acc : List ValidationError)
    (i : String) (is' : List String)
    (hp : c.is_field_provided e.field = true)
    (hi : (rustTrim i).isEmpty = false) :
    (e.field = "price" → parseF64 (rustTrim i) = none →
      csvSession rowNum (e :: rest) c acc (i :: is') =
        csvSession rowNum rest c
          (acc ++ [⟨"price", "Invalid price format", some rowNum, some (rustTrim i)⟩]) is')
    ∧ (e.field = "quantity" → parseI32 (rustTrim i) = none →
      csvSession rowNum (e :: rest) c acc (i :: is') =
        csvSession rowNum rest c
          (acc ++ [⟨"quantity", "Invalid quantity format", some rowNum,
            some (rustTrim i)⟩]) is') := by
  have hprompt : promptInput (i :: is') = (some (rustTrim i), is') := by
    simp [promptInput, hi]
  constructor
  · intro hf hparse
    rw [hf] at hp
    simp only [csvSession, hp, hprompt, Bool.not_true, Bool.false_eq_true, if_false, hf]
    simp only [updCsvApply, hparse]
  · intro hf hparse
    rw [hf] at hp
    simp only [csvSession, hp, hprompt, Bool.not_true, Bool.false_eq_true, if_false, hf]
    simp only [updCsvApply, hparse]

/-- Witness for C6 (amended): the input `abc` for a price error appends
one format error and the session moves on. -/
theorem csv_session_numeric_parse_failure_witness :
    csvSession 2 [⟨"price", "Price must be non-negative", none, some "-5"⟩]
        rowM5 [] ["abc"] =
      csvSession 2 [] rowM5
        [⟨"price", "Invalid price format", some 2, some "abc"⟩] [] :=
  (csv_session_numeric_parse_failure 2
    ⟨"price", "Price must be non-negative", none, some "-5"⟩ [] rowM5 [] "abc" []
    (by decide) (by decide)).1 rfl (by decide)

/-- Counterexample to C7 as stated: the eighty-space title has exactly
80 characters and is a non-empty string, yet validation reports an error
(the emptiness message: the source trims before testing emptiness); and
the title of eighty two-byte characters has exactly 80 characters yet
reports the 80-character-limit error, because the source tests
`str::len`, the UTF-8 byte length. -/
theorem eighty_char_title_rejected :
    spaces80.length = 80 ∧ spaces80 ≠ "" ∧
    validate_title_ebay spaces80 =
      [⟨"title", "Title cannot be empty", none, some spaces80⟩] ∧
    eAcute80.length = 80 ∧ eAcute80 ≠ "" ∧
    (validate_title_ebay eAcute80).head? =
      some ⟨"title", "Exceeds eBay's 80-character limit", none, some eAcute80⟩ := by
  decide

/-- A string has at least as many UTF-8 bytes as characters: every
scalar value encodes to one byte or more. -/
theorem length_le_rustLen (s : String) : s.length ≤ rustLen s := by
  show s.data.length ≤ (s.data.map charUtf8Size).sum
  induction s.data with
  | nil => simp
  | cons c l ih =>
      have hc : 1 ≤ charUtf8Size c := by
        unfold charUtf8Size
        split_ifs <;> omega
      simp only [List.length_cons, List.map_cons, List.sum_cons]
      omega

/-- C7 (amended): a title of at most 80 UTF-8 bytes that is non-blank
after trimming passes title validation; a title of more than 80 bytes —
hence, since a character encodes to at least one byte, any title of 81
characters — reports the 80-character-limit error first; and this holds
uniformly across the eBay, StockX, Poshmark and Mercari rule sets. For
ASCII titles bytes and characters coincide, so the stated
80/81-character boundary holds exactly for non-blank ASCII titles. -/
theorem title_80_byte_boundary :
    (∀ s : String, rustLen s ≤ 80 → (rustTrim s).isEmpty = false →
      validate_title_ebay s = [] ∧ validate_title_stockx s = [] ∧
      validate_title_poshmark s = [] ∧ validate_title_mercari s = [])
    ∧ (∀ s : String, rustLen s > 80 →
      (validate_title_ebay s).head? =
        some ⟨"title", "Exceeds eBay's 80-character limit", none, some s⟩ ∧
      (validate_title_stockx s).head? =
        some ⟨"title", "Exceeds StockX's 80-character limit", none, some s⟩ ∧
      (validate_title_poshmark s).head? =
        some ⟨"title", "Exceeds Poshmark's 80-character limit", none, some s⟩ ∧
      (validate_title_mercari s).head? =
        some ⟨"title", "Exceeds Mercari's 80-character limit", none, some s⟩)
    ∧ (∀ s : String, s.length = 81 →
      (validate_title_ebay s).head? =
        some ⟨"title", "Exceeds eBay's 80-character limit", none, some s⟩ ∧
      (validate_title_stockx s).head? =
        some ⟨"title", "Exceeds StockX's 80-character limit", none, some s⟩ ∧
      (validate_title_poshmark s).head? =
        some ⟨"title", "Exceeds Poshmark's 80-character limit", none, some s⟩ ∧
      (validate_title_mercari s).head? =
        some ⟨"title", "Exceeds Mercari's 80-character limit", none, some s⟩) := by
  have hover : ∀ s : String, rustLen s > 80 →
      (validate_title_ebay s).head? =
        some ⟨"title", "Exceeds eBay's 80-character limit", none, some s⟩ ∧
      (validate_title_stockx s).head? =
        some ⟨"title", "Exceeds StockX's 80-character limit", none, some s⟩ ∧
      (validate_title_poshmark s).head? =
        some ⟨"title", "Exceeds Poshmark's 80-character limit", none, some s⟩ ∧
      (validate_title_mercari s).head? =
        some ⟨"title", "Exceeds Mercari's 80-character limit", none, some s⟩ := by
    intro s hgt
    refine ⟨?_, ?_, ?_, ?_⟩ <;>
      simp [validate_title_ebay, validate_title_stockx, validate_title_poshmark,
        validate_title_mercari, hgt]
  refine ⟨?_, hover, ?_⟩
  · intro s h1 h2
    have hgt : ¬ rustLen s > 80 := by omega
    refine ⟨?_, ?_, ?_, ?_⟩ <;>
      simp [validate_title_ebay, validate_title_stockx, validate_title_poshmark,
        validate_title_mercari, hgt, h2]
  · intro s h1
    have hle := length_le_rustLen s
    exact hover s (by omega)

/-- Witness for C7 (amended): eighty letters pass all four rule sets;
eighty-one letters fail all four with the limit message; and the
81-character title opening with a two-byte character (82 bytes) fails
all four as well. -/
theorem title_80_byte_boundary_witness :
    (validate_title_ebay a80 = [] ∧ validate_title_stockx a80 = [] ∧
      validate_title_poshmark a80 = [] ∧ validate_title_mercari a80 = [])
    ∧ ((validate_title_ebay a81).head? =
        some ⟨"title", "Exceeds eBay's 80-character limit", none, some a81⟩ ∧
      (validate_title_stockx a81).head? =
        some ⟨"title", "Exceeds StockX's 80-character limit", none, some a81⟩ ∧
      (validate_title_poshmark a81).head? =
        some ⟨"title", "Exceeds Poshmark's 80-character limit", none, some a81⟩ ∧
      (validate_title_mercari a81).head? =
        some ⟨"title", "Exceeds Mercari's 80-character limit", none, some a81⟩)
    ∧ ((validate_title_ebay e1a80).head? =
        some ⟨"title", "Exceeds eBay's 80-character limit", none, some e1a80⟩ ∧
      (validate_title_stockx e1a80).head? =
        some ⟨"title", "Exceeds StockX's 80-character limit", none, some e1a80⟩ ∧
      (validate_title_poshmark e1a80).head? =
        some ⟨"title", "Exceeds Poshmark's 80-character limit", none, some e1a80⟩ ∧
      (validate_title_mercari e1a80).head? =
        some ⟨"title", "Exceeds Mercari's 80-character limit", none, some e1a80⟩) :=
  ⟨title_80_byte_boundary.1 a80 (by decide) (by decide),
   title_80_byte_boundary.2.1 a81 (by decide),
   title_80_byte_boundary.2.2 e1a80 (by decide)⟩

/-- Counterexample to C9 as stated: a brand of 101 spaces is present and
longer than 100 characters yet reports no error (the source only fires
when the trimmed brand is non-empty); and a brand of 51 two-byte
characters is 51 characters — at most 100 — yet reports the length
error, because the source tests `str::len`, the UTF-8 byte length. -/
theorem brand_length_check_gaps :
    spaces101.length = 101 ∧ validate_brand spaces101 = [] ∧
    eAcute51.length = 51 ∧
    validate_brand eAcute51 =
      [⟨"brand", "Brand name exceeds 100 character limit", none, some eAcute51⟩] := by
  decide

/-- C9 (amended): a present brand reports the length error exactly when
it is non-blank after trimming and longer than 100 UTF-8 bytes; a brand
of at most 100 bytes reports nothing, and a whitespace-only brand
reports nothing regardless of length. -/
theorem brand_100_byte_rule :
    (∀ b : String, (rustTrim b).isEmpty = false → rustLen b > 100 →
      validate_brand b =
        [⟨"brand", "Brand name exceeds 100 character limit", none, some b⟩])
    ∧ (∀ b : String, rustLen b ≤ 100 → validate_brand b = [])
    ∧ (∀ b : String, (rustTrim b).isEmpty = true → validate_brand b = []) := by
  refine ⟨?_, ?_, ?_⟩
  · intro b h1 h2
    simp [validate_brand, h1, h2]
  · intro b h
    have hgt : ¬ rustLen b > 100 := by omega
    simp [validate_brand, hgt]
  · intro b h
    simp [validate_brand, h]

/-- Witness for C9 (amended): one brand per case. -/
theorem brand_100_byte_rule_witness :
    validate_brand a101 =
      [⟨"brand", "Brand name exceeds 100 character limit", none, some a101⟩]
    ∧ validate_brand "Nike" = []
    ∧ validate_brand spaces101 = [] :=
  ⟨brand_100_byte_rule.1 a101 (by decide) (by decide),
   brand_100_byte_rule.2.1 "Nike" (by decide),
   brand_100_byte_rule.2.2 spaces101 (by decide)⟩

/-- Looking a key up after mapping a key-preserving function over the
store is the mapped lookup. -/
theorem get_item_by_id_map (st : Store) (id : Int) (f : Item → Item)
    (hf : ∀ it, (f it).item_id = it.item_id) :
    get_item_by_id (st.map f) id = (get_item_by_id st id).map f := by
  unfold get_item_by_id
  rw [List.find?_map]
  have hcomp : ((fun it => it.item_id == id) ∘ f) = (fun it => it.item_id == id) := by
    funext it
    simp [Function.comp, hf it]
  rw [hcomp]

/-- C8: an update row supplying only a price for an existing id that
passes the merged validation rewrites exactly the price and the
last-updated timestamp of the stored record, leaving title, quantity,
category, condition, brand and upc unchanged; and in general the partial
update writes only the supplied fields plus the touched timestamp. -/
theorem price_only_update_frame (st : Store) (now : String)
    (headers record : List String) (rowNum : Nat) (id : Int) (p : Rat) (it : Item)
    (hrec : UpdateRow.from_record record headers rowNum =
      .ok ⟨id, none, some p, none, none, none, none, none⟩)
    (hit : get_item_by_id st id = some it)
    (hval : mergedValidation ⟨id, none, some p, none, none, none, none, none⟩ it = []) :
    (updateCsvRow st now headers record rowNum false [] =
      .ok (st.map (fun j => if j.item_id == id then
        update_item_fields j none (some p) none none none none none now else j), [], [])
    ∧ get_item_by_id (st.map (fun j => if j.item_id == id then
        update_item_fields j none (some p) none none none none none now else j)) id =
      some { it with price := p, last_updated := now }
    ∧ ∀ (t : Option String) (pr : Option Rat) (q : Option Int)
        (cat cond b u : Option String),
        (update_item_fields it t pr q cat cond b u now).item_id = it.item_id ∧
        (update_item_fields it t pr q cat cond b u now).last_updated = now ∧
        (t = none → (update_item_fields it t pr q cat cond b u now).title = it.title) ∧
        (pr = none → (update_item_fields it t pr q cat cond b u now).price = it.price) ∧
        (q = none → (update_item_fields it t pr q cat cond b u now).quantity = it.quantity) ∧
        (cat = none → (update_item_fields it t pr q cat cond b u now).category = it.category) ∧
        (cond = none → (update_item_fields it t pr q cat cond b u now).condition = it.condition) ∧
        (b = none → (update_item_fields it t pr q cat cond b u now).brand = it.brand) ∧
        (u = none → (update_item_fields it t pr q cat cond b u now).upc = it.upc)) := by
  have hsome : (get_item_by_id st id).isSome = true := by rw [hit]; rfl
  refine ⟨?_, ?_, ?_⟩
  · unfold updateCsvRow
    rw [hrec]
    simp only [hit, hval, List.isEmpty_nil, update_item, hsome, if_true]
    rfl
  · have hpres : ∀ j : Item, ((fun j => if j.item_id == id then
        update_item_fields j none (some p) none none none none none now else j) j).item_id =
        j.item_id := by
      intro j
      by_cases hj : (j.item_id == id) = true <;> simp [hj, update_item_fields]
    rw [get_item_by_id_map st id _ hpres, hit]
    have hkey :=
      List.find?_some (show List.find? (fun j => j.item_id == id) st = some it from hit)
    have hkey2 : it.item_id = id := by simpa using hkey
    simp [hkey2, update_item_fields]
  · intro t pr q cat cond b u
    refine ⟨rfl, rfl, ?_, ?_, ?_, ?_, ?_, ?_, ?_⟩ <;>
      (intro h; subst h; rfl)

/-- Witness for C8: updating only the price of the stored item 7. -/
theorem price_only_update_frame_witness :
    get_item_by_id ([item7].map (fun j => if j.item_id == (7 : Int) then
      update_item_fields j none (some (mkRat 1999 100)) none none none none none "T1"
      else j)) 7 =
    some { item7 with price := mkRat 1999 100, last_updated := "T1" } :=
  (price_only_update_frame [item7] "T1" ["id", "price"] ["7", "19.99"] 2 7
    (mkRat 1999 100) item7 (by decide) (by decide) (by decide)).2.1

/-- One step of the extraction fold: a cell whose header carries no
non-blank value for a field leaves that field of the accumulator
untouched. -/
theorem fromRecordStep_fields (headers : List String) (rowNum : Nat)
    (acc acc' : UpdateRow) (i : Nat) (v : String)
    (h : fromRecordStep headers rowNum acc i v = .ok acc') :
    ((headers.get? i = some "title" → (rustTrim v).isEmpty = true) →
      acc'.title = acc.title)
    ∧ ((headers.get? i = some "price" → (rustTrim v).isEmpty = true) →
      acc'.price = acc.price)
    ∧ ((headers.get? i = some "quantity" → (rustTrim v).isEmpty = true) →
      acc'.quantity = acc.quantity)
    ∧ ((headers.get? i = some "condition" → (rustTrim v).isEmpty = true) →
      acc'.condition = acc.condition)
    ∧ ((headers.get? i = some "category" → (rustTrim v).isEmpty = true) →
      acc'.category = acc.category)
    ∧ ((headers.get? i = some "brand" → (rustTrim v).isEmpty = true) →
      acc'.brand = acc.brand)
    ∧ ((headers.get? i = some "upc" → (rustTrim v).isEmpty = true) →
      acc'.upc = acc.upc) := by
  unfold fromRecordStep at h
  cases hh : headers.get? i with
  | none => simp only [hh] at h; cases h
  | some hname =>
      simp only [hh] at h
      simp only [Option.some.injEq]
      by_cases hb : (rustTrim v).isEmpty = true
      · rw [if_pos hb] at h
        injection h with h2
        subst h2
        refine ⟨?_, ?_, ?_, ?_, ?_, ?_, ?_⟩ <;> intro _ <;> rfl
      · rw [if_neg hb] at h
        split at h <;> (try split at h) <;>
          first
          | (injection h with h2; subst h2;
             refine ⟨?_, ?_, ?_, ?_, ?_, ?_, ?_⟩ <;> intro hpre <;>
               first
               | rfl
               | exact absurd (hpre (by simp_all)) hb)
          | injection h

/-- One step of the extraction fold preserves that every stored string
field is non-empty (only trimmed non-blank text is ever stored). -/
theorem fromRecordStep_trimmed_nonempty (headers : List String) (rowNum : Nat)
    (acc acc' : UpdateRow) (i : Nat) (v : String)
    (h : fromRecordStep headers rowNum acc i v = .ok acc') :
    ((∀ t, acc.title = some t → ¬ t = "") → ∀ t, acc'.title = some t → ¬ t = "")
    ∧ ((∀ t, acc.condition = some t → ¬ t = "") → ∀ t, acc'.condition = some t → ¬ t = "")
    ∧ ((∀ t, acc.category = some t → ¬ t = "") → ∀ t, acc'.category = some t → ¬ t = "")
    ∧ ((∀ t, acc.brand = some t → ¬ t = "") → ∀ t, acc'.brand = some t → ¬ t = "")
    ∧ ((∀ t, acc.upc = some t → ¬ t = "") → ∀ t, acc'.upc = some t → ¬ t = "") := by
  unfold fromRecordStep at h
  cases hh : headers.get? i with
  | none => simp only [hh] at h; cases h
  | some hname =>
      simp only [hh] at h
      by_cases hb : (rustTrim v).isEmpty = true
      · rw [if_pos hb] at h
        injection h with h2
        subst h2
        exact ⟨id, id, id, id, id⟩
      · rw [if_neg hb] at h
        have hne : ¬ rustTrim v = "" := by
          intro hcontra
          rw [hcontra] at hb
          exact hb rfl
        split at h <;> (try split at h) <;>
          first
          | (injection h with h2; subst h2;
             refine ⟨?_, ?_, ?_, ?_, ?_⟩ <;> intro hinv t ht <;>
               first
               | exact hinv t ht
               | (cases ht; exact hne))
          | injection h

/-- The extraction fold never writes a field all of whose cells are
blank after trimming. -/
theorem fromRecordAux_fields (headers : List String) (rowNum : Nat) :
    ∀ (cells : List String) (i : Nat) (acc u : UpdateRow),
      fromRecordAux headers rowNum i acc cells = .ok u →
      ((∀ j v, cells.get? j = some v → headers.get? (i + j) = some "title" →
          (rustTrim v).isEmpty = true) → u.title = acc.title)
      ∧ ((∀ j v, cells.get? j = some v → headers.get? (i + j) = some "price" →
          (rustTrim v).isEmpty = true) → u.price = acc.price)
      ∧ ((∀ j v, cells.get? j = some v → headers.get? (i + j) = some "quantity" →
          (rustTrim v).isEmpty = true) → u.quantity = acc.quantity)
      ∧ ((∀ j v, cells.get? j = some v → headers.get? (i + j) = some "condition" →
          (rustTrim v).isEmpty = true) → u.condition = acc.condition)
      ∧ ((∀ j v, cells.get? j = some v → headers.get? (i + j) = some "category" →
          (rustTrim v).isEmpty = true) → u.category = acc.category)
      ∧ ((∀ j v, cells.get? j = some v → headers.get? (i + j) = some "brand" →
          (rustTrim v).isEmpty = true) → u.brand = acc.brand)
      ∧ ((∀ j v, cells.get? j = some v → headers.get? (i + j) = some "upc" →
          (rustTrim v).isEmpty = true) → u.upc = acc.upc) := by
  intro cells
  induction cells with
  | nil =>
      intro i acc u h
      cases h
      exact ⟨fun _ => rfl, fun _ => rfl, fun _ => rfl, fun _ => rfl,
        fun _ => rfl, fun _ => rfl, fun _ => rfl⟩
  | cons v rest ih =>
      intro i acc u h
      cases hstep : fromRecordStep headers rowNum acc i v with
      | error e => simp only [fromRecordAux, hstep] at h; cases h
      | ok acc' =>
          simp only [fromRecordAux, hstep] at h
          have hstepf := fromRecordStep_fields headers rowNum acc acc' i v hstep
          have hrest := ih (i + 1) acc' u h
          refine ⟨?_, ?_, ?_, ?_, ?_, ?_, ?_⟩ <;> intro hblank
          · rw [hrest.1 (fun j w hj hhj => hblank (j + 1) w (by simpa using hj)
                (by rw [show i + (j + 1) = i + 1 + j from by omega]; exact hhj)),
              hstepf.1 (fun hhi => hblank 0 v rfl (by simpa using hhi))]
          · rw [hrest.2.1 (fun j w hj hhj => hblank (j + 1) w (by simpa using hj)
                (by rw [show i + (j + 1) = i + 1 + j from by omega]; exact hhj)),
              hstepf.2.1 (fun hhi => hblank 0 v rfl (by simpa using hhi))]
          · rw [hrest.2.2.1 (fun j w hj hhj => hblank (j + 1) w (by simpa using hj)
                (by rw [show i + (j + 1) = i + 1 + j from by omega]; exact hhj)),
              hstepf.2.2.1 (fun hhi => hblank 0 v rfl (by simpa using hhi))]
          · rw [hrest.2.2.2.1 (fun j w hj hhj => hblank (j + 1) w (by simpa using hj)
                (by rw [show i + (j + 1) = i + 1 + j from by omega]; exact hhj)),
              hstepf.2.2.2.1 (fun hhi => hblank 0 v rfl (by simpa using hhi))]
          · rw [hrest.2.2.2.2.1 (fun j w hj hhj => hblank (j + 1) w (by simpa using hj)
                (by rw [show i + (j + 1) = i + 1 + j from by omega]; exact hhj)),
              hstepf.2.2.2.2.1 (fun hhi => hblank 0 v rfl (by simpa using hhi))]
          · rw [hrest.2.2.2.2.2.1 (fun j w hj hhj => hblank (j + 1) w (by simpa using hj)
                (by rw [show i + (j + 1) = i + 1 + j from by omega]; exact hhj)),
              hstepf.2.2.2.2.2.1 (fun hhi => hblank 0 v rfl (by simpa using hhi))]
          · rw [hrest.2.2.2.2.2.2 (fun j w hj hhj => hblank (j + 1) w (by simpa using hj)
                (by rw [show i + (j + 1) = i + 1 + j from by omega]; exact hhj)),
              hstepf.2.2.2.2.2.2 (fun hhi => hblank 0 v rfl (by simpa using hhi))]

/-- The extraction fold preserves that every stored string field is
non-empty. -/
theorem fromRecordAux_trimmed (headers : List String) (rowNum : Nat) :
    ∀ (cells : List String) (i : Nat) (acc u : UpdateRow),
      fromRecordAux headers rowNum i acc cells = .ok u →
      ((∀ t, acc.title = some t → ¬ t = "") → ∀ t, u.title = some t → ¬ t = "")
      ∧ ((∀ t, acc.condition = some t → ¬ t = "") → ∀ t, u.condition = some t → ¬ t = "")
      ∧ ((∀ t, acc.category = some t → ¬ t = "") → ∀ t, u.category = some t → ¬ t = "")
      ∧ ((∀ t, acc.brand = some t → ¬ t = "") → ∀ t, u.brand = some t → ¬ t = "")
      ∧ ((∀ t, acc.upc = some t → ¬ t = "") → ∀ t, u.upc = some t → ¬ t = "") := by
  intro cells
  induction cells with
  | nil =>
      intro i acc u h
      cases h
      exact ⟨id, id, id, id, id⟩
  | cons v rest ih =>
      intro i acc u h
      cases hstep : fromRecordStep headers rowNum acc i v with
      | error e => simp only [fromRecordAux, hstep] at h; cases h
      | ok acc' =>
          simp only [fromRecordAux, hstep] at h
          have hs := fromRecordStep_trimmed_nonempty headers rowNum acc acc' i v hstep
          have hr := ih (i + 1) acc' u h
          exact ⟨fun hi => hr.1 (hs.1 hi), fun hi => hr.2.1 (hs.2.1 hi),
            fun hi => hr.2.2.1 (hs.2.2.1 hi), fun hi => hr.2.2.2.1 (hs.2.2.2.1 hi),
            fun hi => hr.2.2.2.2 (hs.2.2.2.2 hi)⟩

/-- The `from_record` fold behind an accepted row. -/
theorem from_record_fold (record headers : List String) (rowNum : Nat) (u : UpdateRow)
    (h : UpdateRow.from_record record headers rowNum = .ok u) :
    fromRecordAux headers rowNum 0 emptyUpdateRow record = .ok u := by
  unfold UpdateRow.from_record at h
  cases hf : fromRecordAux headers rowNum 0 emptyUpdateRow record with
  | error e => simp only [hf] at h; exact h
  | ok u' =>
      simp only [hf] at h
      by_cases hid : u'.id = 0
      · rw [if_pos hid] at h; cases h
      · rw [if_neg hid] at h; cases h; rfl

/-- C10: in the CSV update path a row cell that is empty or
whitespace-only after trimming is treated as never supplied: the
extraction step ignores the cell outright (identical to the cell being
absent), a field all of whose cells are blank ends up unset and fails
the was-supplied check that gates error eligibility, every stored string
value is non-empty — so a CSV update can never set a stored field to an
empty value — and an all-unsupplied update touches only the timestamp of
the stored record. -/
theorem blank_update_cells_never_supplied :
    (∀ (headers : List String) (rowNum : Nat) (acc : UpdateRow) (i : Nat) (v hname : String),
      headers.get? i = some hname → (rustTrim v).isEmpty = true →
      fromRecordStep headers rowNum acc i v = .ok acc)
    ∧ (∀ (record headers : List String) (rowNum : Nat) (u : UpdateRow),
        UpdateRow.from_record record headers rowNum = .ok u →
        ((∀ j v, record.get? j = some v → headers.get? j = some "title" →
            (rustTrim v).isEmpty = true) →
          u.title = none ∧ u.is_field_provided "title" = false)
        ∧ ((∀ j v, record.get? j = some v → headers.get? j = some "price" →
            (rustTrim v).isEmpty = true) →
          u.price = none ∧ u.is_field_provided "price" = false)
        ∧ ((∀ j v, record.get? j = some v → headers.get? j = some "quantity" →
            (rustTrim v).isEmpty = true) →
          u.quantity = none ∧ u.is_field_provided "quantity" = false)
        ∧ ((∀ j v, record.get? j = some v → headers.get? j = some "condition" →
            (rustTrim v).isEmpty = true) →
          u.condition = none ∧ u.is_field_provided "condition" = false)
        ∧ ((∀ j v, record.get? j = some v → headers.get? j = some "category" →
            (rustTrim v).isEmpty = true) →
          u.category = none ∧ u.is_field_provided "category" = false)
        ∧ ((∀ j v, record.get? j = some v → headers.get? j = some "brand" →
            (rustTrim v).isEmpty = true) →
          u.brand = none ∧ u.is_field_provided "brand" = false)
        ∧ ((∀ j v, record.get? j = some v → headers.get? j = some "upc" →
            (rustTrim v).isEmpty = true) →
          u.upc = none ∧ u.is_field_provided "upc" = false))
    ∧ (∀ (record headers : List String) (rowNum : Nat) (u : UpdateRow),
        UpdateRow.from_record record headers rowNum = .ok u →
        (∀ t, u.title = some t → ¬ t = "") ∧ (∀ t, u.condition = some t → ¬ t = "")
        ∧ (∀ t, u.category = some t → ¬ t = "") ∧ (∀ t, u.brand = some t → ¬ t = "")
        ∧ (∀ t, u.upc = some t → ¬ t = ""))
    ∧ (∀ (it : Item) (now : String),
        update_item_fields it none none none none none none none now =
          { it with last_updated := now }) := by
  refine ⟨?_, ?_, ?_, ?_⟩
  · intro headers rowNum acc i v hname hh hb
    unfold fromRecordStep
    rw [hh]
    simp [hb]
  · intro record headers rowNum u h
    have hfold := from_record_fold record headers rowNum u h
    have hfields := fromRecordAux_fields headers rowNum record 0 emptyUpdateRow u hfold
    refine ⟨?_, ?_, ?_, ?_, ?_, ?_, ?_⟩ <;> intro hblank
    · have h1 := hfields.1 (fun j v hj hh => hblank j v hj (by simpa using hh))
      have h2 := h1.trans (show _ = none from rfl)
      exact ⟨h2, by simp [UpdateRow.is_field_provided, h2]⟩
    · have h1 := hfields.2.1 (fun j v hj hh => hblank j v hj (by simpa using hh))
      have h2 := h1.trans (show _ = none from rfl)
      exact ⟨h2, by simp [UpdateRow.is_field_provided, h2]⟩
    · have h1 := hfields.2.2.1 (fun j v hj hh => hblank j v hj (by simpa using hh))
      have h2 := h1.trans (show _ = none from rfl)
      exact ⟨h2, by simp [UpdateRow.is_field_provided, h2]⟩
    · have h1 := hfields.2.2.2.1 (fun j v hj hh => hblank j v hj (by simpa using hh))
      have h2 := h1.trans (show _ = none from rfl)
      exact ⟨h2, by simp [UpdateRow.is_field_provided, h2]⟩
    · have h1 := hfields.2.2.2.2.1 (fun j v hj hh => hblank j v hj (by simpa using hh))
      have h2 := h1.trans (show _ = none from rfl)
      exact ⟨h2, by simp [UpdateRow.is_field_provided, h2]⟩
    · have h1 := hfields.2.2.2.2.2.1 (fun j v hj hh => hblank j v hj (by simpa using hh))
      have h2 := h1.trans (show _ = none from rfl)
      exact ⟨h2, by simp [UpdateRow.is_field_provided, h2]⟩
    · have h1 := hfields.2.2.2.2.2.2 (fun j v hj hh => hblank j v hj (by simpa using hh))
      have h2 := h1.trans (show _ = none from rfl)
      exact ⟨h2, by simp [UpdateRow.is_field_provided, h2]⟩
  · intro record headers rowNum u h
    have hfold := from_record_fold record headers rowNum u h
    have htr := fromRecordAux_trimmed headers rowNum record 0 emptyUpdateRow u hfold
    exact ⟨htr.1 (fun t ht => nomatch ht), htr.2.1 (fun t ht => nomatch ht),
      htr.2.2.1 (fun t ht => nomatch ht), htr.2.2.2.1 (fun t ht => nomatch ht),
      htr.2.2.2.2 (fun t ht => nomatch ht)⟩
  · intro it now
    rfl

/-- Witness for C10: a blank title cell is a no-op of the extraction
step; the row `id = 7` with a three-space title cell is extracted with
the title unset, failing the was-supplied check; and an all-unsupplied
update touches only the timestamp of the stored item. -/
theorem blank_update_cells_never_supplied_witness :
    fromRecordStep ["id", "title"] 2 rowM5 1 "   " = .ok rowM5 ∧
    (UpdateRow.from_record ["7", "   "] ["id", "title"] 2 = .ok row7only ∧
      row7only.title = none ∧ row7only.is_field_provided "title" = false) ∧
    update_item_fields item7 none none none none none none none "T1" =
      { item7 with last_updated := "T1" } := by
  refine ⟨?_, ⟨by decide, ?_⟩, ?_⟩
  · exact blank_update_cells_never_supplied.1 ["id", "title"] 2 rowM5 1 "   " "title"
      (by decide) (by decide)
  · have hb : ∀ j v, (["7", "   "] : List String).get? j = some v →
        (["id", "title"] : List String).get? j = some "title" →
        (rustTrim v).isEmpty = true := by
      intro j v hj hh
      cases j with
      | zero => simp at hh
      | succ j' =>
          cases j' with
          | zero =>
              simp at hj
              subst hj
              decide
          | succ n => simp at hj
    exact (blank_update_cells_never_supplied.2.1 ["7", "   "] ["id", "title"] 2 row7only
      (by decide)).1 hb
  · exact blank_update_cells_never_supplied.2.2.2 item7 "T1"
